import Mathlib

set_option maxHeartbeats 1000000

/-!
Verification development for the Toast order-aggregation pipeline
(`src/app/api/toast/orders/totals/route.ts`, the totals-by-checks variant,
and `src/app/api/toast/orders/checks/route.ts`).

JavaScript strings are modelled as their character lists; JavaScript numbers
as an exact rational together with NaN and signed infinities (finite
arithmetic is exact, without IEEE rounding, which is the standard shallow
embedding for these aggregation routines); parsed JSON values as an
inductive `Json` type.
-/

/-- Model of a JavaScript number: a finite rational, NaN, or a signed
infinity. -/
inductive JsNum where
  | fin (q : ℚ)
  | nan
  | inf (pos : Bool)
deriving DecidableEq

namespace JsNum

/-- JavaScript `+` on numbers: NaN propagates, opposite infinities give NaN,
an infinity absorbs finite values, finite values add exactly. -/
def add : JsNum → JsNum → JsNum
  | nan, _ => nan
  | _, nan => nan
  | inf b, inf c => if b = c then inf b else nan
  | inf b, fin _ => inf b
  | fin _, inf c => inf c
  | fin a, fin b => fin (a + b)

/-- JavaScript `Number.isFinite`. -/
def isFinite : JsNum → Bool
  | fin _ => true
  | _ => false

end JsNum

/-- The date normalizer's first rewrite, on the REVERSED character list of
the input. Source: `input.replace(/(\.\d{3}) (\d{4})$/, "$1+$2")`
(`totals/route.ts` line 11): if the string ends in a dot, three digits, a
space and four digits, the space is replaced by a plus sign; otherwise the
string is unchanged. On the reversed list the pattern reads: four digits, a
space, three digits, a dot. -/
def fixSpaceRev (l : List Char) : List Char :=
  match l with
  | a :: b :: c :: d :: s :: e :: f :: g :: p :: rest =>
    if a.isDigit && b.isDigit && c.isDigit && d.isDigit && (s == ' ')
        && e.isDigit && f.isDigit && g.isDigit && (p == '.') then
      a :: b :: c :: d :: '+' :: e :: f :: g :: '.' :: rest
    else l
  | _ => l

/-- The date normalizer's final rewrite, on the REVERSED character list.
Source: `input.replace(/([+-]\d{2}):(\d{2})$/, "$1$2")`
(`totals/route.ts` line 17): if the string ends in a sign, two digits, a
colon and two digits, the colon is removed; otherwise unchanged. -/
def fixColonRev (l : List Char) : List Char :=
  match l with
  | a :: b :: q :: c :: d :: sg :: rest =>
    if a.isDigit && b.isDigit && (q == ':') && c.isDigit && d.isDigit
        && ((sg == '+') || (sg == '-')) then
      a :: b :: c :: d :: sg :: rest
    else l
  | _ => l

/-- The body of `normalizeToastDate` (`totals/route.ts` lines 9-20), acting
on the reversed character list: first the lost-plus fixup, then — if the
string ends in `Z` — replace that `Z` by `+0000` and return, else apply the
colon-removal fixup. -/
def normRev (l : List Char) : List Char :=
  match fixSpaceRev l with
  | 'Z' :: rest => '0' :: '0' :: '0' :: '0' :: '+' :: rest
  | l1 => fixColonRev l1

/-- `normalizeToastDate` from `totals/route.ts` lines 9-20 (identical in
`part_000` lines 5-14 and `part_001` lines 6-17), with the input string
modelled as its character list. -/
def normalizeToastDate (s : List Char) : List Char :=
  (normRev s.reverse).reverse

/-- Model of a parsed JSON value flowing through the pipeline. JSON parsing
itself never produces NaN or infinities, but `Json.num` carries a full
`JsNum` so the aggregators' finiteness guards are modelled honestly over
all inputs. -/
inductive Json where
  | null
  | bool (b : Bool)
  | num (n : JsNum)
  | str (s : String)
  | arr (elems : List Json)
  | obj (fields : List (String × Json))

/-- Lookup of a key in an object's field list (JavaScript objects after
JSON parsing have unique keys; the first match is taken). -/
def lookupField : List (String × Json) → String → Option Json
  | [], _ => none
  | (k, v) :: rest, key => if k = key then some v else lookupField rest key

/-- JavaScript property access `v?.key` / `v.key`: a field of an object, and
`undefined` (here `none`) on every non-object, including null. -/
def jsField (j : Json) (k : String) : Option Json :=
  match j with
  | .obj fs => lookupField fs k
  | _ => none

/-- JavaScript `Array.isArray(v.key) ? v.key : []`, as used for `checks`,
`payments`, `selections` and `appliedDiscounts` throughout the source. -/
def getArrField (j : Json) (k : String) : List Json :=
  match jsField j k with
  | some (.arr xs) => xs
  | _ => []

/-- JavaScript `typeof x === "string"`. -/
def isString : Json → Bool
  | .str _ => true
  | _ => false

/-- The guard `x && typeof x === "object"` used on orders, checks, payments
and discounts: true exactly for objects and arrays (null has typeof
"object" but is falsy, so it is excluded; numbers, strings and booleans
have a different typeof). -/
def isObjLike : Json → Bool
  | .obj _ => true
  | .arr _ => true
  | _ => false

/-- JavaScript falsiness of a JSON value: null, false, zero, NaN and the
empty string are falsy. -/
def falsy : Json → Bool
  | .null => true
  | .bool b => !b
  | .num (.fin q) => decide (q = 0)
  | .num .nan => true
  | .num (.inf _) => false
  | .str s => s.data.isEmpty
  | .arr _ => false
  | .obj _ => false

/-- Whitespace trimmed by JavaScript `Number(string)`. -/
def isJsSpace (c : Char) : Bool :=
  (c == ' ') || (c == '\t') || (c == '\n') || (c == '\r')

/-- Numeric value of a digit character. -/
def digVal (c : Char) : Nat := c.toNat - '0'.toNat

/-- Value of a run of decimal digit characters. -/
def digitsVal (cs : List Char) : Nat :=
  cs.foldl (fun n c => n * 10 + digVal c) 0

/-- Unsigned decimal literal parser for the model of JavaScript
`Number(string)`: digits with an optional single decimal point, where at
least one digit must be present (`"5"`, `"5."`, `".5"`, `"2.75"`); `none`
models NaN. Exponent and hexadecimal forms, which the repository never
feeds to these coercions, are modelled as non-numeric. -/
def parseUnsignedDec (cs : List Char) : Option ℚ :=
  let intPart := cs.takeWhile (fun c => c ≠ '.')
  let rest := cs.dropWhile (fun c => c ≠ '.')
  match rest with
  | [] => if !intPart.isEmpty && intPart.all Char.isDigit
      then some ((digitsVal intPart : ℚ)) else none
  | _ :: frac =>
    if (intPart.isEmpty && frac.isEmpty) then none
    else if intPart.all Char.isDigit && frac.all Char.isDigit then
      some ((digitsVal intPart : ℚ) + (digitsVal frac : ℚ) / ((10 : ℚ) ^ frac.length))
    else none

/-- Model of JavaScript `Number(string)`: trimmed empty string is 0, an
optionally signed decimal literal is its value, anything else is NaN. -/
def strToNum (s : String) : JsNum :=
  match ((s.data.dropWhile isJsSpace).reverse.dropWhile isJsSpace).reverse with
  | [] => .fin 0
  | '+' :: rest =>
    match parseUnsignedDec rest with
    | some q => .fin q
    | none => .nan
  | '-' :: rest =>
    match parseUnsignedDec rest with
    | some q => .fin (-q)
    | none => .nan
  | cs =>
    match parseUnsignedDec cs with
    | some q => .fin q
    | none => .nan

/-- Model of JavaScript `Number(v)` coercion on the value shapes these
routes feed it: null is 0, booleans are 0/1, numbers are themselves,
strings are parsed, the empty array is 0, and other arrays and all plain
objects are NaN (the `Number([single])` string-round-trip corner of real
JavaScript is collapsed to NaN; no claim and no repository input exercises
it). -/
def toNumber : Json → JsNum
  | .null => .fin 0
  | .bool b => .fin (if b then 1 else 0)
  | .num n => n
  | .str s => strToNum s
  | .arr [] => .fin 0
  | .arr (_ :: _) => .nan
  | .obj _ => .nan

/-- The amount coercion used on every monetary field, applied to an
optional field value: `typeof v === "number" ? v : Number(v ?? 0)`
(`totals/route.ts` lines 59, 62, 70 and the analogues in `part_001`).
A missing (`undefined`) or null field becomes `Number(0) = 0`; a number is
taken as is; anything else goes through the `Number` coercion. -/
def coerceAmt : Option Json → JsNum
  | none => .fin 0
  | some .null => .fin 0
  | some (.num n) => n
  | some v => toNumber v

/-- `extractOrders` from `totals/route.ts` lines 25-32 (identical in
`part_000` lines 20-37, `part_001` lines 27-34): falsy input gives the
empty list; then `orders`, `orderIds`, the top-level array, and
`data.orders` are tried in that order, each accepted only when it is an
array; otherwise the empty list. -/
def extractOrders (j : Json) : List Json :=
  if falsy j then []
  else match jsField j "orders" with
  | some (.arr xs) => xs
  | _ =>
    match jsField j "orderIds" with
    | some (.arr xs) => xs
    | _ =>
      match j with
      | .arr xs => xs
      | _ =>
        match jsField j "data" with
        | some d =>
          if falsy d then []
          else match jsField d "orders" with
          | some (.arr xs) => xs
          | _ => []
        | none => []

/-- The running-totals record of `totals/route.ts` lines 173-180 and the
return shape of `sumTotalsFromOrders` (lines 77-84). The three monetary
accumulators are JavaScript numbers; the three counters are only ever
incremented by one from zero, so they are naturals. -/
structure Totals where
  totalGrossSales : JsNum
  totalNetSales : JsNum
  totalTax : JsNum
  orderCount : Nat
  checkCount : Nat
  capturedPaymentCount : Nat
deriving DecidableEq

/-- The zero-initialised totals (`totals/route.ts` lines 41-47, 173-180). -/
def zeroTotals : Totals :=
  { totalGrossSales := .fin 0, totalNetSales := .fin 0, totalTax := .fin 0
    orderCount := 0, checkCount := 0, capturedPaymentCount := 0 }

/-- Componentwise addition of totals, exactly the accumulation step of
`totals/route.ts` lines 234-241. -/
def addTotals (t u : Totals) : Totals :=
  { totalGrossSales := t.totalGrossSales.add u.totalGrossSales
    totalNetSales := t.totalNetSales.add u.totalNetSales
    totalTax := t.totalTax.add u.totalTax
    orderCount := t.orderCount + u.orderCount
    checkCount := t.checkCount + u.checkCount
    capturedPaymentCount := t.capturedPaymentCount + u.capturedPaymentCount }

/-- The payment test `p.paymentStatus === "CAPTURED"`: strict equality of
the field with the exact string. -/
def isCaptured (p : Json) : Bool :=
  match jsField p "paymentStatus" with
  | some (.str s) => s == "CAPTURED"
  | _ => false

/-- One iteration of the payments loop of `sumTotalsFromOrders`
(`totals/route.ts` lines 66-73), threading the gross-sales accumulator and
the captured-payment counter: a non-object payment is skipped; a CAPTURED
payment always increments the counter and adds its amount only when the
coerced amount is finite. -/
def addPayment (gc : JsNum × Nat) (p : Json) : JsNum × Nat :=
  if isObjLike p then
    if isCaptured p then
      let amt := coerceAmt (jsField p "amount")
      (if amt.isFinite then gc.1.add amt else gc.1, gc.2 + 1)
    else gc
  else gc

/-- One iteration of the checks loop of `sumTotalsFromOrders`
(`totals/route.ts` lines 55-74): a non-object check is skipped; otherwise
the check counter increments, the coerced `amount` and `taxAmount` are
added when finite, and the payments loop runs. -/
def addCheck (t : Totals) (check : Json) : Totals :=
  if isObjLike check then
    let t1 := { t with checkCount := t.checkCount + 1 }
    let net := coerceAmt (jsField check "amount")
    let t2 := if net.isFinite
      then { t1 with totalNetSales := t1.totalNetSales.add net } else t1
    let tax := coerceAmt (jsField check "taxAmount")
    let t3 := if tax.isFinite
      then { t2 with totalTax := t2.totalTax.add tax } else t2
    let r := (getArrField check "payments").foldl addPayment
      (t3.totalGrossSales, t3.capturedPaymentCount)
    { t3 with totalGrossSales := r.1, capturedPaymentCount := r.2 }
  else t

/-- One iteration of the orders loop of `sumTotalsFromOrders`
(`totals/route.ts` lines 49-75): a non-object order (a bare ID string in
particular) is skipped; otherwise the order counter increments and the
checks loop runs over `order.checks`. -/
def addOrder (t : Totals) (order : Json) : Totals :=
  if isObjLike order then
    (getArrField order "checks").foldl addCheck { t with orderCount := t.orderCount + 1 }
  else t

/-- `sumTotalsFromOrders` from `totals/route.ts` lines 40-85 (identical in
`part_000` lines 47-94): the triple nested loop, as a fold of the
per-order step from zero. -/
def sumTotalsFromOrders (orders : List Json) : Totals :=
  orders.foldl addOrder zeroTotals

/-- The IDs-only test of `totals/route.ts` line 211:
`orders.length > 0 && orders.every((x) => typeof x === "string")`. -/
def containsOnlyIds (orders : List Json) : Bool :=
  !orders.isEmpty && orders.all isString

/-- Result of fetching one page from the upstream: the HTTP status of the
response and its parsed body (`fetchOrdersBulkPage`, `totals/route.ts`
lines 91-128; the network call itself is the abstracted collaborator). -/
structure PageResult where
  status : Nat
  json : Json

/-- The `res.ok` test of the fetch response: status in the 200-299 range. -/
def resOk (pr : PageResult) : Bool :=
  decide (200 ≤ pr.status) && decide (pr.status < 300)

/-- Outcome of the pagination driver, mirroring the three response shapes
of `totals/route.ts`: the upstream-failure response of lines 199-204
(upstream status forwarded, body under `detail`, failing page number), the
IDs-only response of lines 212-227 (page number and `sampleIds`), and the
success response of lines 251-280 (the accumulated totals). Each outcome
also records how many upstream calls were made in the run. -/
inductive DriverOutcome where
  | upstreamError (status : Nat) (detail : Json) (page : Nat) (calls : Nat)
  | idsOnly (page : Nat) (sampleIds : List Json) (calls : Nat)
  | success (totals : Totals) (calls : Nat)

/-- HTTP status of the response the endpoint sends for an outcome: the
upstream's own status on upstream failure (line 202), 200 for the IDs-only
condition (line 225) and 200 on success (lines 276, 280). -/
def respStatus : DriverOutcome → Nat
  | .upstreamError s _ _ _ => s
  | .idsOnly _ _ _ => 200
  | .success _ _ => 200

/-- The aggregated totals carried by the response: present only on the
success path — the upstream-failure and IDs-only response bodies contain
no totals fields at all. -/
def respTotals : DriverOutcome → Option Totals
  | .success t _ => some t
  | _ => none

/-- The upstream body forwarded under `detail` in the upstream-failure
response (line 201); absent from the other responses. -/
def respDetail : DriverOutcome → Option Json
  | .upstreamError _ d _ _ => some d
  | _ => none

/-- The descriptive `error` field of the response body: present on the
upstream-failure response (line 201) and the IDs-only response (line 216),
absent on success. -/
def respError : DriverOutcome → Option String
  | .upstreamError _ _ _ _ => some "Toast ordersBulk failed"
  | .idsOnly _ _ _ => some "ordersBulk returned only order IDs (no order details to sum)."
  | .success _ _ => none

/-- Number of upstream calls the run performed. -/
def driverCalls : DriverOutcome → Nat
  | .upstreamError _ _ _ c => c
  | .idsOnly _ _ c => c
  | .success _ c => c

/-- Whether the run ended in the successful totals-carrying response. -/
def isSuccessOutcome : DriverOutcome → Bool
  | .success _ _ => true
  | _ => false

/-- The pagination loop of `totals/route.ts` lines 188-249, with the
upstream abstracted as a map from page number to `PageResult` and the
remaining iteration budget (`maxPages - page + 1`) as fuel. Each iteration
fetches the current page; a non-ok response aborts with the upstream
status and body; a non-empty all-strings extraction aborts into the
IDs-only condition with the first ten elements as sample; an empty
extraction breaks out returning the totals so far; otherwise the page's
totals are added and the loop continues. Falling out of the budget returns
the totals so far (lines 251-280), as does the break. `pageSize` only
shapes the upstream request (already abstracted into `pages`); the loop
logic never branches on it — the short-page heuristic block at lines
243-248 is empty. -/
def driverLoop (pages : Nat → PageResult) (t : Totals) (page rem calls : Nat) :
    DriverOutcome :=
  match rem with
  | 0 => .success t calls
  | rem + 1 =>
    let pr := pages page
    if !resOk pr then
      .upstreamError pr.status pr.json page (calls + 1)
    else
      let orders := extractOrders pr.json
      if containsOnlyIds orders then
        .idsOnly page (orders.take 10) (calls + 1)
      else if orders.isEmpty then
        .success t (calls + 1)
      else
        driverLoop pages (addTotals t (sumTotalsFromOrders orders))
          (page + 1) rem (calls + 1)

/-- The whole driver run of the `GET` handler (`totals/route.ts` lines
172-280): pages 1 through `maxPages`, starting from zero totals. -/
def runDriver (pages : Nat → PageResult) (maxPages : Nat) : DriverOutcome :=
  driverLoop pages zeroTotals 1 maxPages 0

/-- Totals accumulated by the driver over `k` consecutive pages starting at
`page`, in the loop's own left-to-right accumulation order. -/
def accumPages (pages : Nat → PageResult) (t : Totals) (page : Nat) : Nat → Totals
  | 0 => t
  | k + 1 =>
    accumPages pages
      (addTotals t (sumTotalsFromOrders (extractOrders (pages page).json)))
      (page + 1) k

/-- A page on which the loop continues to the next page: ok response,
non-empty extraction, not the IDs-only shape. -/
def goodPage (pr : PageResult) : Bool :=
  resOk pr && !(extractOrders pr.json).isEmpty && !containsOnlyIds (extractOrders pr.json)

namespace ChecksRoute

/-- The metrics record returned by `computeCheckMetrics` in
`src/app/api/toast/orders/checks/route.ts` (`part_001` lines 101-109). -/
structure CheckMetrics where
  grossSales : JsNum
  netSales : JsNum
  tax : JsNum
  discountAmount : JsNum
  discountCount : Nat
  paymentCount : Nat
  capturedPaymentCount : Nat
deriving DecidableEq

/-- JavaScript nullish coalescing `v ?? fallback` on an optional field
value: the fallback when the field is absent (undefined) or null, the
value itself otherwise. -/
def nullish (v : Option Json) (fallback : Json) : Json :=
  match v with
  | none => fallback
  | some .null => fallback
  | some w => w

/-- `sumDiscountsFromDiscountObjects` from `part_001` lines 43-57, applied
to an optional value (the call sites pass `check?.appliedDiscounts`, which
may be absent): non-arrays give 0; otherwise each element contributes
`d?.discountAmount ?? d?.amount ?? d?.appliedDiscountAmount ?? 0`, coerced
by `Number` when not already a number, and clamped to 0 when not
finite. The reduce body is named `discountContribution`. -/
def discountContribution (d : Json) : JsNum :=
  let raw := nullish (jsField d "discountAmount")
    (nullish (jsField d "amount")
      (nullish (jsField d "appliedDiscountAmount") (.num (.fin 0))))
  let amt := match raw with
    | .num n => n
    | w => toNumber w
  if amt.isFinite then amt else .fin 0

def sumDiscountsFromDiscountObjects (v : Option Json) : JsNum :=
  match v with
  | some (.arr ds) => ds.foldl (fun sum d => sum.add (discountContribution d)) (.fin 0)
  | _ => .fin 0

/-- `computeDiscountTotal` from `part_001` lines 59-72: the check-level
discount list plus, for each element of `check.selections`, that
selection's discount list, all through
`sumDiscountsFromDiscountObjects`. -/
def computeDiscountTotal (check : Json) : JsNum :=
  let t := sumDiscountsFromDiscountObjects (jsField check "appliedDiscounts")
  (getArrField check "selections").foldl
    (fun total s => total.add (sumDiscountsFromDiscountObjects (jsField s "appliedDiscounts"))) t

/-- `computeCheckMetrics` from `part_001` lines 74-110. Note that the
returned `discountAmount` field (lines 89-93) sums the check-level
`appliedDiscounts` reading ONLY the `discountAmount` field of each
discount object — the alternate-name fallback lives in
`sumDiscountsFromDiscountObjects`, whose result `discountTotal` (line 99)
is computed but not part of the returned record. -/
def computeCheckMetrics (check : Json) : CheckMetrics :=
  let payments := getArrField check "payments"
  let capturedPayments := payments.filter isCaptured
  let grossSales := capturedPayments.foldl (fun sum p =>
    let amt := coerceAmt (jsField p "amount")
    sum.add (if amt.isFinite then amt else .fin 0)) (.fin 0)
  let netSales := coerceAmt (jsField check "amount")
  let tax := coerceAmt (jsField check "taxAmount")
  let appliedDiscounts := getArrField check "appliedDiscounts"
  let discountAmount := appliedDiscounts.foldl (fun sum d =>
    let amt := coerceAmt (jsField d "discountAmount")
    sum.add (if amt.isFinite then amt else .fin 0)) (.fin 0)
  { grossSales := grossSales
    netSales := if netSales.isFinite then netSales else .fin 0
    tax := if tax.isFinite then tax else .fin 0
    discountAmount := discountAmount
    discountCount := appliedDiscounts.length
    paymentCount := payments.length
    capturedPaymentCount := capturedPayments.length }

end ChecksRoute

namespace TotalsByChecks

/-- The metrics record returned by `computeCheckMetrics` in
`src/app/api/toast/orders/totals-by-checks/route.ts` (route.ts second
document, lines 323-329). -/
structure CheckMetrics where
  grossSales : JsNum
  netSales : JsNum
  tax : JsNum
  paymentCount : Nat
  capturedPaymentCount : Nat
deriving DecidableEq

/-- `computeCheckMetrics` from the totals-by-checks route (route.ts second
document, lines 311-330): captured payments are those with
`paymentStatus === "CAPTURED"`; gross sales sums their finite coerced
amounts; net and tax are the check's own coerced fields clamped to 0 when
not finite; the two counts are the list lengths. -/
def computeCheckMetrics (check : Json) : CheckMetrics :=
  let payments := getArrField check "payments"
  let captured := payments.filter isCaptured
  let grossSales := captured.foldl (fun sum p =>
    let amt := coerceAmt (jsField p "amount")
    sum.add (if amt.isFinite then amt else .fin 0)) (.fin 0)
  let net := coerceAmt (jsField check "amount")
  let tax := coerceAmt (jsField check "taxAmount")
  { grossSales := grossSales
    netSales := if net.isFinite then net else .fin 0
    tax := if tax.isFinite then tax else .fin 0
    paymentCount := payments.length
    capturedPaymentCount := captured.length }

end TotalsByChecks

/-- Claim-side restatement (spec §4.3/§9 wording for C5): the ordered list
of candidate discount field names tried in sequence. -/
def claimDiscountCandidates : List String := ["discountAmount", "amount", "appliedDiscountAmount"]

/-- Claim-side: the first present (non-null) field of a discount object
among a candidate name list. -/
def claimFirstPresent (d : Json) : List String → Option Json
  | [] => none
  | k :: ks =>
    match jsField d k with
    | some .null => claimFirstPresent d ks
    | some v => some v
    | none => claimFirstPresent d ks

/-- Claim-side: the contribution of one discount object — the first present
field among the alternate names, coerced, with missing or non-numeric
(non-finite) values contributing zero. -/
def claimDiscountValue (d : Json) : JsNum :=
  match claimFirstPresent d claimDiscountCandidates with
  | none => .fin 0
  | some v =>
    let amt := match v with
      | .num n => n
      | w => toNumber w
    if amt.isFinite then amt else .fin 0

/-- Claim-side (C5 as stated): sum over the check's own discount list of
the per-object fallback contribution. -/
def claimOwnListDiscountSum (check : Json) : JsNum :=
  (getArrField check "appliedDiscounts").foldl
    (fun s d => s.add (claimDiscountValue d)) (.fin 0)

/-- Amended-claim side for C5: the per-object contribution reading only
the `discountAmount` field, as the returned metric actually does. -/
def singleFieldDiscountValue (d : Json) : JsNum :=
  let amt := coerceAmt (jsField d "discountAmount")
  if amt.isFinite then amt else .fin 0

/-- Amended-claim side for C5: sum over the check's own discount list of
the single-field contribution. -/
def singleFieldDiscountSum (check : Json) : JsNum :=
  (getArrField check "appliedDiscounts").foldl
    (fun s d => s.add (singleFieldDiscountValue d)) (.fin 0)

/-- Claim-side for C5's selection-aware part: the per-selection fallback
sums of the check's line-item selections. -/
def claimSelectionsDiscountSum (check : Json) : JsNum :=
  (getArrField check "selections").foldl
    (fun s sel => s.add (ChecksRoute.sumDiscountsFromDiscountObjects (jsField sel "appliedDiscounts")))
    (.fin 0)

/-- Claim-side for C8: the sum of the (finite-guarded, coerced) amounts of
exactly the payments whose status is the exact string `CAPTURED`. -/
def specCapturedSum (ps : List Json) : JsNum :=
  ((ps.filter isCaptured).map (fun p => coerceAmt (jsField p "amount"))).foldl
    (fun s a => s.add (if a.isFinite then a else .fin 0)) (.fin 0)

/-- The check of claim C8's example: one CAPTURED payment of 10.00 and one
VOIDED payment of 5.00. -/
def c8ExampleCheck : Json := .obj [("payments", .arr
  [ .obj [("paymentStatus", .str "CAPTURED"), ("amount", .num (.fin 10))]
  , .obj [("paymentStatus", .str "VOIDED"), ("amount", .num (.fin 5))] ])]

/-- A check whose single payment has status `captured` in lower case — the
case-sensitivity probe for C8. -/
def c8LowerCaseCheck : Json := .obj [("payments", .arr
  [ .obj [("paymentStatus", .str "captured"), ("amount", .num (.fin 10))] ])]

/-- Counterexample input for C5: a check whose single discount object has
an `amount` field (5) but no `discountAmount` field. -/
def c5Check : Json := .obj [("appliedDiscounts", .arr
  [ .obj [("amount", .num (.fin 5))] ])]

/-- A concrete full order: one check with net 7, tax 1 and one captured
payment of 8. -/
def orderA : Json := .obj [("checks", .arr
  [ .obj [("amount", .num (.fin 7)), ("taxAmount", .num (.fin 1)),
      ("payments", .arr [.obj [("paymentStatus", .str "CAPTURED"), ("amount", .num (.fin 8))]])] ])]

/-- Concrete upstream for claim C6's scenario: page 1 returns exactly two
orders, every later page returns zero orders. -/
def pagesC6 : Nat → PageResult := fun n =>
  if n = 1 then ⟨200, .obj [("orders", .arr [orderA, .obj []])]⟩
  else ⟨200, .obj [("orders", .arr [])]⟩

/-- Concrete upstream where page 1 has data and page 2 is empty. -/
def pagesEmptyAt2 : Nat → PageResult := fun n =>
  if n = 1 then ⟨200, .obj [("orders", .arr [orderA])]⟩
  else ⟨200, .obj [("orders", .arr [])]⟩

/-- Concrete upstream where page 1 has data and page 2 fails with 502. -/
def pagesFailAt2 : Nat → PageResult := fun n =>
  if n = 1 then ⟨200, .obj [("orders", .arr [orderA])]⟩
  else ⟨502, .obj [("message", .str "bad gateway")]⟩

/-- Concrete upstream where page 1 has data and page 2 returns bare
identifier strings only. -/
def pagesIdsAt2 : Nat → PageResult := fun n =>
  if n = 1 then ⟨200, .obj [("orders", .arr [orderA])]⟩
  else ⟨200, .obj [("orderIds", .arr [.str "guid-1", .str "guid-2"])]⟩

theorem jsAdd_zero_left (x : JsNum) : (JsNum.fin 0).add x = x := by
  cases x <;> simp [JsNum.add]

theorem jsAdd_zero_right (x : JsNum) : x.add (JsNum.fin 0) = x := by
  cases x <;> simp [JsNum.add]

theorem jsAdd_assoc (x y z : JsNum) : (x.add y).add z = x.add (y.add z) := by
  cases x <;> cases y <;> cases z <;>
    simp [JsNum.add, add_assoc] <;> split_ifs <;> simp_all [JsNum.add]

theorem addTotals_zero_left (t : Totals) : addTotals zeroTotals t = t := by
  simp [addTotals, zeroTotals, jsAdd_zero_left]

theorem addTotals_zero_right (t : Totals) : addTotals t zeroTotals = t := by
  simp [addTotals, zeroTotals, jsAdd_zero_right]

theorem addTotals_assoc (t u v : Totals) :
    addTotals (addTotals t u) v = addTotals t (addTotals u v) := by
  simp [addTotals, jsAdd_assoc, Nat.add_assoc]

theorem addPayment_shift (g : JsNum) (n : Nat) (p : Json) :
    addPayment (g, n) p =
      (g.add (addPayment (.fin 0, 0) p).1, n + (addPayment (.fin 0, 0) p).2) := by
  simp only [addPayment]
  split_ifs <;> simp [jsAdd_zero_right, jsAdd_zero_left]

theorem foldl_addPayment_shift (ps : List Json) : ∀ (g : JsNum) (n : Nat),
    ps.foldl addPayment (g, n) =
      (g.add (ps.foldl addPayment (.fin 0, 0)).1,
       n + (ps.foldl addPayment (.fin 0, 0)).2) := by
  induction ps with
  | nil => intro g n; simp [jsAdd_zero_right]
  | cons p ps ih =>
    intro g n
    simp only [List.foldl_cons]
    rw [addPayment_shift g n p, ih, ih (addPayment (.fin 0, 0) p).1 (addPayment (.fin 0, 0) p).2]
    simp [jsAdd_assoc, Nat.add_assoc]

theorem addCheck_shift (t : Totals) (c : Json) :
    addCheck t c = addTotals t (addCheck zeroTotals c) := by
  by_cases h : isObjLike c
  · simp only [addCheck, h, if_true]
    split_ifs <;>
      simp [addTotals, zeroTotals, Totals.mk.injEq, jsAdd_zero_left, jsAdd_zero_right,
        foldl_addPayment_shift (getArrField c "payments") t.totalGrossSales
          t.capturedPaymentCount]
  · simp [addCheck, h, addTotals_zero_right]

theorem foldl_addCheck_shift (cs : List Json) : ∀ t : Totals,
    cs.foldl addCheck t = addTotals t (cs.foldl addCheck zeroTotals) := by
  induction cs with
  | nil => intro t; simp [addTotals_zero_right]
  | cons c cs ih =>
    intro t
    simp only [List.foldl_cons]
    rw [ih (addCheck t c), ih (addCheck zeroTotals c), addCheck_shift t c, addTotals_assoc]

theorem addOrder_shift (t : Totals) (o : Json) :
    addOrder t o = addTotals t (addOrder zeroTotals o) := by
  by_cases h : isObjLike o
  · simp only [addOrder, h, if_true]
    rw [foldl_addCheck_shift (getArrField o "checks")
      { t with orderCount := t.orderCount + 1 },
      foldl_addCheck_shift (getArrField o "checks")
      { zeroTotals with orderCount := zeroTotals.orderCount + 1 }]
    simp [addTotals, zeroTotals, Totals.mk.injEq, jsAdd_zero_left, jsAdd_zero_right,
      jsAdd_assoc, Nat.add_assoc]
  · simp [addOrder, h, addTotals_zero_right]

theorem foldl_addOrder_shift (os : List Json) : ∀ t : Totals,
    os.foldl addOrder t = addTotals t (os.foldl addOrder zeroTotals) := by
  induction os with
  | nil => intro t; simp [addTotals_zero_right]
  | cons o os ih =>
    intro t
    simp only [List.foldl_cons]
    rw [ih (addOrder t o), ih (addOrder zeroTotals o), addOrder_shift t o, addTotals_assoc]

/-- C4. The per-page totals function is a monoid homomorphism: summing
totals over a concatenation `A ++ B` equals the componentwise sum
(`addTotals`, which is exactly the driver's accumulation step of
`totals/route.ts` lines 234-241) of the totals of `A` and of `B`; hence
the driver's page-by-page accumulation from zero equals the single-pass
summation over the concatenation of all pages, so the grouping of the
summation does not affect the numeric result. -/
theorem sumTotalsFromOrders_monoid_hom :
    (∀ A B : List Json,
      sumTotalsFromOrders (A ++ B) = addTotals (sumTotalsFromOrders A) (sumTotalsFromOrders B))
    ∧ (∀ ps : List (List Json),
      ps.foldl (fun t p => addTotals t (sumTotalsFromOrders p)) zeroTotals
        = sumTotalsFromOrders ps.flatten) := by
  have hA : ∀ A B : List Json,
      sumTotalsFromOrders (A ++ B) = addTotals (sumTotalsFromOrders A) (sumTotalsFromOrders B) := by
    intro A B
    unfold sumTotalsFromOrders
    rw [List.foldl_append, foldl_addOrder_shift]
  refine ⟨hA, ?_⟩
  intro ps
  induction ps with
  | nil => simp [sumTotalsFromOrders]
  | cons p ps ih =>
    simp only [List.foldl_cons, List.flatten_cons]
    rw [hA p ps.flatten, ← ih]
    have hs : ∀ (l : List (List Json)) (t : Totals),
        l.foldl (fun t p => addTotals t (sumTotalsFromOrders p)) t
          = addTotals t (l.foldl (fun t p => addTotals t (sumTotalsFromOrders p)) zeroTotals) := by
      intro l
      induction l with
      | nil => intro t; simp [addTotals_zero_right]
      | cons q l ihl =>
        intro t
        simp only [List.foldl_cons]
        rw [ihl, ihl (addTotals zeroTotals (sumTotalsFromOrders q)), addTotals_assoc,
          addTotals_zero_left]
    rw [hs ps (addTotals zeroTotals (sumTotalsFromOrders p)), addTotals_zero_left]

theorem jsAdd_finite {x y : JsNum} (hx : x.isFinite = true) (hy : y.isFinite = true) :
    (x.add y).isFinite = true := by
  cases x <;> cases y <;> simp_all [JsNum.add, JsNum.isFinite]

theorem foldl_guarded_finite {α : Type} (f : α → JsNum) :
    ∀ (l : List α) (g : JsNum), g.isFinite = true →
      (l.foldl (fun s x => s.add (if (f x).isFinite then f x else .fin 0)) g).isFinite = true := by
  intro l
  induction l with
  | nil => intro g hg; simpa using hg
  | cons x l ih =>
    intro g hg
    simp only [List.foldl_cons]
    apply ih
    by_cases hf : (f x).isFinite = true
    · simpa [hf] using jsAdd_finite hg hf
    · simp only [hf]
      simpa using jsAdd_finite hg (by simp [JsNum.isFinite])

theorem foldl_addPayment_finite (ps : List Json) : ∀ (g : JsNum) (n : Nat),
    g.isFinite = true → ((ps.foldl addPayment (g, n)).1).isFinite = true := by
  induction ps with
  | nil => intro g n hg; simpa using hg
  | cons p ps ih =>
    intro g n hg
    simp only [List.foldl_cons, addPayment]
    split_ifs with h1 h2 h3
    · exact ih _ _ (jsAdd_finite hg h3)
    · exact ih _ _ hg
    · exact ih _ _ hg
    · exact ih _ _ hg

/-- Finiteness of the three monetary accumulators of a totals record. -/
def finTotals (t : Totals) : Prop :=
  t.totalGrossSales.isFinite = true ∧ t.totalNetSales.isFinite = true
    ∧ t.totalTax.isFinite = true

theorem finTotals_zero : finTotals zeroTotals := by
  simp [finTotals, zeroTotals, JsNum.isFinite]

theorem addCheck_finite {t : Totals} (ht : finTotals t) (c : Json) :
    finTotals (addCheck t c) := by
  obtain ⟨h1, h2, h3⟩ := ht
  simp only [addCheck, finTotals]
  split_ifs <;>
    (first
      | exact ⟨h1, h2, h3⟩
      | (refine ⟨foldl_addPayment_finite _ _ _ ?_, ?_, ?_⟩ <;>
          simp_all [jsAdd_finite]))

theorem addOrder_finite {t : Totals} (ht : finTotals t) (o : Json) :
    finTotals (addOrder t o) := by
  simp only [addOrder]
  split_ifs with hobj
  · have : ∀ (cs : List Json) (u : Totals), finTotals u → finTotals (cs.foldl addCheck u) := by
      intro cs
      induction cs with
      | nil => intro u hu; simpa using hu
      | cons c cs ih =>
        intro u hu
        simp only [List.foldl_cons]
        exact ih _ (addCheck_finite hu c)
    exact this _ _ ⟨ht.1, ht.2.1, ht.2.2⟩
  · exact ht

/-- C9. The aggregator and the metric calculator are total functions of
arbitrary JSON input and never produce NaN (nor an infinity): every
monetary output of `sumTotalsFromOrders` and of the checks route's
`computeCheckMetrics` is a finite number, because every field is coerced
and guarded by `Number.isFinite` before being added, with missing or
non-numeric values contributing zero. -/
theorem aggregation_never_nan :
    (∀ orders : List Json, finTotals (sumTotalsFromOrders orders))
    ∧ (∀ check : Json,
        (ChecksRoute.computeCheckMetrics check).grossSales.isFinite = true
        ∧ (ChecksRoute.computeCheckMetrics check).netSales.isFinite = true
        ∧ (ChecksRoute.computeCheckMetrics check).tax.isFinite = true
        ∧ (ChecksRoute.computeCheckMetrics check).discountAmount.isFinite = true) := by
  constructor
  · intro orders
    have : ∀ (os : List Json) (t : Totals), finTotals t → finTotals (os.foldl addOrder t) := by
      intro os
      induction os with
      | nil => intro t ht; simpa using ht
      | cons o os ih =>
        intro t ht
        simp only [List.foldl_cons]
        exact ih _ (addOrder_finite ht o)
    exact this orders zeroTotals finTotals_zero
  · intro check
    refine ⟨?_, ?_, ?_, ?_⟩
    · exact foldl_guarded_finite (fun p => coerceAmt (jsField p "amount")) _ _
        (by simp [JsNum.isFinite])
    · simp only [ChecksRoute.computeCheckMetrics]
      split_ifs with h
      · exact h
      · simp [JsNum.isFinite]
    · simp only [ChecksRoute.computeCheckMetrics]
      split_ifs with h
      · exact h
      · simp [JsNum.isFinite]
    · exact foldl_guarded_finite (fun d => coerceAmt (jsField d "discountAmount")) _ _
        (by simp [JsNum.isFinite])

theorem fixSpaceRev_head_not_digit {a : Char} (l : List Char) (h : a.isDigit = false) :
    fixSpaceRev (a :: l) = a :: l := by
  rcases l with _ | ⟨b, _ | ⟨c, _ | ⟨d, _ | ⟨s, _ | ⟨e, _ | ⟨f, _ | ⟨g, _ | ⟨p, rest⟩⟩⟩⟩⟩⟩⟩⟩ <;>
    simp [fixSpaceRev, h]

theorem fixSpaceRev_fifth_not_space (a b c d s : Char) (l : List Char)
    (h : (s == ' ') = false) :
    fixSpaceRev (a :: b :: c :: d :: s :: l) = a :: b :: c :: d :: s :: l := by
  rcases l with _ | ⟨e, _ | ⟨f, _ | ⟨g, _ | ⟨p, rest⟩⟩⟩⟩ <;> simp [fixSpaceRev, h]

theorem fixSpaceRev_idem (l : List Char) : fixSpaceRev (fixSpaceRev l) = fixSpaceRev l := by
  rcases l with _ | ⟨a, _ | ⟨b, _ | ⟨c, _ | ⟨d, _ | ⟨s, _ | ⟨e, _ | ⟨f, _ | ⟨g, _ | ⟨p, rest⟩⟩⟩⟩⟩⟩⟩⟩⟩ <;>
    try rfl
  by_cases h : (a.isDigit && b.isDigit && c.isDigit && d.isDigit && (s == ' ')
      && e.isDigit && f.isDigit && g.isDigit && (p == '.')) = true
  · have h1 : fixSpaceRev (a :: b :: c :: d :: s :: e :: f :: g :: p :: rest)
        = a :: b :: c :: d :: '+' :: e :: f :: g :: '.' :: rest := by
      simp [fixSpaceRev, h]
    rw [h1]
    exact fixSpaceRev_fifth_not_space a b c d '+' _ (by decide)
  · have h1 : fixSpaceRev (a :: b :: c :: d :: s :: e :: f :: g :: p :: rest)
        = a :: b :: c :: d :: s :: e :: f :: g :: p :: rest := by
      simp [fixSpaceRev, h]
    rw [h1, h1]

theorem fixColonRev_third_not_colon (a b q : Char) (l : List Char) (h : (q == ':') = false) :
    fixColonRev (a :: b :: q :: l) = a :: b :: q :: l := by
  rcases l with _ | ⟨c, _ | ⟨d, _ | ⟨sg, rest⟩⟩⟩ <;> simp [fixColonRev, h]

theorem fixColonRev_cases (l : List Char) :
    fixColonRev l = l ∨
    ∃ a b c d sg rest, l = a :: b :: ':' :: c :: d :: sg :: rest
      ∧ a.isDigit = true ∧ c.isDigit = true ∧ (sg = '+' ∨ sg = '-')
      ∧ fixColonRev l = a :: b :: c :: d :: sg :: rest := by
  rcases l with _ | ⟨a, _ | ⟨b, _ | ⟨q, _ | ⟨c, _ | ⟨d, _ | ⟨sg, rest⟩⟩⟩⟩⟩⟩
  · left; rfl
  · left; rfl
  · left; rfl
  · left; rfl
  · left; rfl
  · left; rfl
  · by_cases h : (a.isDigit && b.isDigit && (q == ':') && c.isDigit && d.isDigit
        && ((sg == '+') || (sg == '-'))) = true
    · right
      have h2 := h
      simp only [Bool.and_eq_true, Bool.or_eq_true, beq_iff_eq, and_assoc] at h2
      obtain ⟨ha, hb, hq, hc, hd, hsg⟩ := h2
      subst hq
      exact ⟨a, b, c, d, sg, rest, rfl, ha, hc, hsg, by simp [fixColonRev]; tauto⟩
    · left; simp [fixColonRev, h]

theorem normRev_z_shape (rest : List Char) :
    normRev ('0' :: '0' :: '0' :: '0' :: '+' :: rest)
      = '0' :: '0' :: '0' :: '0' :: '+' :: rest := by
  unfold normRev
  rw [fixSpaceRev_fifth_not_space _ _ _ _ _ _ (by decide)]
  exact fixColonRev_third_not_colon _ _ _ _ (by decide)

theorem normRev_idem (l : List Char) : normRev (normRev l) = normRev l := by
  have hfsi := fixSpaceRev_idem l
  cases hfs : fixSpaceRev l with
  | nil =>
    have h1 : normRev l = [] := by
      unfold normRev
      rw [hfs]
      rfl
    rw [h1]
    have h2 : fixSpaceRev ([] : List Char) = [] := rfl
    unfold normRev
    rw [h2]
    rfl
  | cons hd tl =>
    rw [hfs] at hfsi
    by_cases hz : hd = 'Z'
    · subst hz
      have h1 : normRev l = '0' :: '0' :: '0' :: '0' :: '+' :: tl := by
        unfold normRev
        rw [hfs]
        rfl
      rw [h1, normRev_z_shape]
    · have h1 : normRev l = fixColonRev (hd :: tl) := by
        unfold normRev
        rw [hfs]
        split
        · rename_i rest heq
          injection heq with heq1 _
          exact absurd heq1 hz
        · rfl
      rw [h1]
      rcases fixColonRev_cases (hd :: tl) with hcc | ⟨a, b, c, d, sg, rest, hshape, ha, hc, hsg, hout⟩
      · rw [hcc]
        unfold normRev
        rw [hfsi]
        split
        · rename_i rest heq
          injection heq with heq1 _
          exact absurd heq1 hz
        · exact hcc
      · rw [hout]
        have hsgs : (sg == ' ') = false := by
          rcases hsg with h | h <;> subst h <;> decide
        have haz : a ≠ 'Z' := by
          intro h
          subst h
          exact absurd ha (by decide)
        have hcq : (c == ':') = false := by
          have : c ≠ ':' := by
            intro h
            subst h
            exact absurd hc (by decide)
          simpa using this
        unfold normRev
        rw [fixSpaceRev_fifth_not_space _ _ _ _ _ _ hsgs]
        split
        · rename_i rest2 heq
          injection heq with heq1 _
          exact absurd heq1 haz
        · exact fixColonRev_third_not_colon _ _ _ _ hcq

/-- C7. For every input ending in the character `Z`, `normalizeToastDate`
replaces exactly that trailing `Z` by `+0000` and changes nothing else:
the output is the input's other characters followed by `+0000`. -/
theorem normalizeToastDate_trailing_z (t : List Char) :
    normalizeToastDate (t ++ ['Z']) = t ++ ['+', '0', '0', '0', '0'] := by
  unfold normalizeToastDate
  rw [List.reverse_append]
  have h1 : (['Z'].reverse ++ t.reverse) = 'Z' :: t.reverse := by simp
  rw [h1]
  have h2 : fixSpaceRev ('Z' :: t.reverse) = 'Z' :: t.reverse :=
    fixSpaceRev_head_not_digit _ (by decide)
  unfold normRev
  rw [h2]
  simp

/-- C10. The date normalizer is idempotent: normalizing twice equals
normalizing once; in particular an already-normalized timestamp ending in
a four-digit offset passes through unchanged. -/
theorem normalizeToastDate_idem :
    (∀ s : List Char, normalizeToastDate (normalizeToastDate s) = normalizeToastDate s)
    ∧ normalizeToastDate "2026-01-09T00:00:00.000+0000".data
        = "2026-01-09T00:00:00.000+0000".data := by
  constructor
  · intro s
    unfold normalizeToastDate
    rw [List.reverse_reverse, normRev_idem]
  · decide

theorem goodPage_components {pr : PageResult} (h : goodPage pr = true) :
    resOk pr = true ∧ (extractOrders pr.json).isEmpty = false
      ∧ containsOnlyIds (extractOrders pr.json) = false := by
  simp only [goodPage, Bool.and_eq_true, Bool.not_eq_true'] at h
  exact ⟨h.1.1, h.1.2, h.2⟩

theorem driverLoop_continue (pages : Nat → PageResult) :
    ∀ (k page rem calls : Nat) (t : Totals),
      (∀ i, i < k → goodPage (pages (page + i)) = true) → k ≤ rem →
      driverLoop pages t page rem calls
        = driverLoop pages (accumPages pages t page k) (page + k) (rem - k) (calls + k) := by
  intro k
  induction k with
  | zero => intro page rem calls t h hk; simp [accumPages]
  | succ k ih =>
    intro page rem calls t h hk
    obtain ⟨r, hr⟩ : ∃ r, rem = r + 1 := ⟨rem - 1, by omega⟩
    subst hr
    obtain ⟨hok, hne, hni⟩ := goodPage_components (by simpa using h 0 (by omega))
    have hstep : driverLoop pages t page (r + 1) calls
        = driverLoop pages (addTotals t (sumTotalsFromOrders (extractOrders (pages page).json)))
            (page + 1) r (calls + 1) := by
      simp only [driverLoop]
      simp [hok, hne, hni]
    rw [hstep, ih (page + 1) r (calls + 1) _ ?_ ?_]
    · have e1 : page + 1 + k = page + (k + 1) := by omega
      have e2 : r - k = r + 1 - (k + 1) := by omega
      have e3 : calls + 1 + k = calls + (k + 1) := by omega
      rw [e1, e2, e3]
      rfl
    · intro i hi
      have hh := h (i + 1) (by omega)
      have e : page + (i + 1) = page + 1 + i := by omega
      rwa [e] at hh
    · omega

/-- C2. If the upstream fetch for page `n` returns a non-success HTTP
status while all earlier pages continued normally, the aggregation aborts
at page `n`: exactly `n` upstream calls are made (no later page is
fetched), the response's HTTP status is the upstream's own status, the
parsed upstream body is forwarded verbatim as the `detail` field, and the
response carries no totals — the totals accumulated from pages
`1..n-1` are discarded. -/
theorem driver_upstream_error_aborts
    (pages : Nat → PageResult) (n maxPages : Nat)
    (h1 : 1 ≤ n) (h2 : n ≤ maxPages)
    (hgood : ∀ i, 1 ≤ i → i < n → goodPage (pages i) = true)
    (hfail : resOk (pages n) = false) :
    runDriver pages maxPages
      = .upstreamError (pages n).status (pages n).json n n
    ∧ respStatus (runDriver pages maxPages) = (pages n).status
    ∧ respDetail (runDriver pages maxPages) = some (pages n).json
    ∧ respTotals (runDriver pages maxPages) = none
    ∧ driverCalls (runDriver pages maxPages) = n := by
  have hmain : runDriver pages maxPages
      = .upstreamError (pages n).status (pages n).json n n := by
    unfold runDriver
    rw [driverLoop_continue pages (n - 1) 1 maxPages 0 zeroTotals ?_ ?_]
    · have e1 : 1 + (n - 1) = n := by omega
      rw [e1]
      obtain ⟨r, hr⟩ : ∃ r, maxPages - (n - 1) = r + 1 := ⟨maxPages - n, by omega⟩
      rw [hr]
      simp only [driverLoop]
      simp [hfail]
      omega
    · intro i hi
      have := hgood (1 + i) (by omega) (by omega)
      simpa using this
    · omega
  exact ⟨hmain, by rw [hmain]; rfl, by rw [hmain]; rfl, by rw [hmain]; rfl,
    by rw [hmain]; rfl⟩

/-- C3. If the extracted array of page `n` is empty while all earlier
pages continued normally, the driver terminates without fetching any page
beyond `n` (exactly `n` upstream calls) and the endpoint responds with
status 200 carrying exactly the totals accumulated from pages `1..n-1`,
unchanged by the empty page. -/
theorem driver_empty_page_returns_prior_totals
    (pages : Nat → PageResult) (n maxPages : Nat)
    (h1 : 1 ≤ n) (h2 : n ≤ maxPages)
    (hgood : ∀ i, 1 ≤ i → i < n → goodPage (pages i) = true)
    (hok : resOk (pages n) = true)
    (hempty : extractOrders (pages n).json = []) :
    runDriver pages maxPages
      = .success (accumPages pages zeroTotals 1 (n - 1)) n
    ∧ respStatus (runDriver pages maxPages) = 200
    ∧ respTotals (runDriver pages maxPages)
        = some (accumPages pages zeroTotals 1 (n - 1))
    ∧ driverCalls (runDriver pages maxPages) = n := by
  have hmain : runDriver pages maxPages
      = .success (accumPages pages zeroTotals 1 (n - 1)) n := by
    unfold runDriver
    rw [driverLoop_continue pages (n - 1) 1 maxPages 0 zeroTotals ?_ ?_]
    · have e1 : 1 + (n - 1) = n := by omega
      have e2 : (0 : Nat) + (n - 1) = n - 1 := by omega
      rw [e1, e2]
      obtain ⟨r, hr⟩ : ∃ r, maxPages - (n - 1) = r + 1 := ⟨maxPages - n, by omega⟩
      rw [hr]
      simp only [driverLoop]
      simp [hok, hempty, containsOnlyIds]
      omega
    · intro i hi
      have := hgood (1 + i) (by omega) (by omega)
      simpa using this
    · omega
  exact ⟨hmain, by rw [hmain]; rfl, by rw [hmain]; rfl, by rw [hmain]; rfl⟩

/-- C1. If the extracted array of page `n` is non-empty and consists
entirely of strings (bare identifiers) while all earlier pages continued
normally, the driver stops fetching at page `n` (exactly `n` upstream
calls), the endpoint responds with HTTP status 200 carrying the
descriptive error flag and a sample of at most ten of the identifiers, and
the response carries no aggregated totals whatsoever — whatever totals
pages `1..n-1` accumulated are discarded, the outcome being independent of
them. -/
theorem driver_ids_only_terminal
    (pages : Nat → PageResult) (n maxPages : Nat)
    (h1 : 1 ≤ n) (h2 : n ≤ maxPages)
    (hgood : ∀ i, 1 ≤ i → i < n → goodPage (pages i) = true)
    (hok : resOk (pages n) = true)
    (hids : containsOnlyIds (extractOrders (pages n).json) = true) :
    runDriver pages maxPages
      = .idsOnly n ((extractOrders (pages n).json).take 10) n
    ∧ respStatus (runDriver pages maxPages) = 200
    ∧ respTotals (runDriver pages maxPages) = none
    ∧ respError (runDriver pages maxPages)
        = some "ordersBulk returned only order IDs (no order details to sum)."
    ∧ ((extractOrders (pages n).json).take 10).length ≤ 10 := by
  have hmain : runDriver pages maxPages
      = .idsOnly n ((extractOrders (pages n).json).take 10) n := by
    unfold runDriver
    rw [driverLoop_continue pages (n - 1) 1 maxPages 0 zeroTotals ?_ ?_]
    · have e1 : 1 + (n - 1) = n := by omega
      rw [e1]
      obtain ⟨r, hr⟩ : ∃ r, maxPages - (n - 1) = r + 1 := ⟨maxPages - n, by omega⟩
      rw [hr]
      simp only [driverLoop]
      simp [hok, hids]
      omega
    · intro i hi
      have := hgood (1 + i) (by omega) (by omega)
      simpa using this
    · omega
  refine ⟨hmain, by rw [hmain]; rfl, by rw [hmain]; rfl, by rw [hmain]; rfl, ?_⟩
  have := List.length_take 10 (extractOrders (pages n).json)
  omega

theorem driver_upstream_error_aborts_witness :
    runDriver pagesFailAt2 50
      = .upstreamError (pagesFailAt2 2).status (pagesFailAt2 2).json 2 2
    ∧ respStatus (runDriver pagesFailAt2 50) = (pagesFailAt2 2).status
    ∧ respDetail (runDriver pagesFailAt2 50) = some (pagesFailAt2 2).json
    ∧ respTotals (runDriver pagesFailAt2 50) = none
    ∧ driverCalls (runDriver pagesFailAt2 50) = 2 :=
  driver_upstream_error_aborts pagesFailAt2 2 50 (by omega) (by omega)
    (fun i hi1 hi2 => by
      have h : i = 1 := by omega
      subst h
      decide)
    (by decide)

theorem driver_empty_page_returns_prior_totals_witness :
    runDriver pagesEmptyAt2 50
      = .success (accumPages pagesEmptyAt2 zeroTotals 1 1) 2
    ∧ respStatus (runDriver pagesEmptyAt2 50) = 200
    ∧ respTotals (runDriver pagesEmptyAt2 50)
        = some (accumPages pagesEmptyAt2 zeroTotals 1 1)
    ∧ driverCalls (runDriver pagesEmptyAt2 50) = 2 :=
  driver_empty_page_returns_prior_totals pagesEmptyAt2 2 50 (by omega) (by omega)
    (fun i hi1 hi2 => by
      have h : i = 1 := by omega
      subst h
      decide)
    (by decide) (by rfl)

theorem driver_ids_only_terminal_witness :
    runDriver pagesIdsAt2 50
      = .idsOnly 2 ((extractOrders (pagesIdsAt2 2).json).take 10) 2
    ∧ respStatus (runDriver pagesIdsAt2 50) = 200
    ∧ respTotals (runDriver pagesIdsAt2 50) = none
    ∧ respError (runDriver pagesIdsAt2 50)
        = some "ordersBulk returned only order IDs (no order details to sum)."
    ∧ ((extractOrders (pagesIdsAt2 2).json).take 10).length ≤ 10 :=
  driver_ids_only_terminal pagesIdsAt2 2 50 (by omega) (by omega)
    (fun i hi1 hi2 => by
      have h : i = 1 := by omega
      subst h
      decide)
    (by decide) (by decide)

/-- C6, counterexample to the claim as stated. In the claim's scenario —
page 1 returns exactly two orders and the following page returns zero —
the driver terminates successfully after exactly TWO upstream calls, not
three: the loop breaks as soon as the second fetch comes back empty, so
there is no third call. -/
theorem driver_calls_counterexample :
    (extractOrders (pagesC6 1).json).length = 2
    ∧ extractOrders (pagesC6 2).json = []
    ∧ isSuccessOutcome (runDriver pagesC6 50) = true
    ∧ driverCalls (runDriver pagesC6 50) = 2
    ∧ ¬ driverCalls (runDriver pagesC6 50) = 3 := by
  refine ⟨by decide, by rfl, by decide, by decide, by decide⟩

/-- C6 as amended: in the claim's scenario (first page continues with its
two orders, second page ok and empty), the driver terminates successfully
after exactly two upstream calls in total — the data-bearing first fetch
plus the confirming empty fetch. -/
theorem driver_two_orders_then_empty_two_calls
    (pages : Nat → PageResult) (maxPages : Nat) (h2 : 2 ≤ maxPages)
    (hgood1 : goodPage (pages 1) = true)
    (_hlen : (extractOrders (pages 1).json).length = 2)
    (hok2 : resOk (pages 2) = true)
    (hempty2 : extractOrders (pages 2).json = []) :
    isSuccessOutcome (runDriver pages maxPages) = true
    ∧ driverCalls (runDriver pages maxPages) = 2 := by
  have hmain : runDriver pages maxPages
      = .success (accumPages pages zeroTotals 1 1) 2 := by
    unfold runDriver
    rw [driverLoop_continue pages 1 1 maxPages 0 zeroTotals ?_ ?_]
    · obtain ⟨r, hr⟩ : ∃ r, maxPages - 1 = r + 1 := ⟨maxPages - 2, by omega⟩
      rw [hr]
      simp only [driverLoop]
      have e1 : (1 : Nat) + 1 = 2 := by omega
      rw [e1]
      simp [hok2, hempty2, containsOnlyIds]
    · intro i hi
      have h : i = 0 := by omega
      subst h
      simpa using hgood1
    · omega
  rw [hmain]
  exact ⟨rfl, rfl⟩

theorem driver_two_orders_then_empty_two_calls_witness :
    isSuccessOutcome (runDriver pagesC6 50) = true
    ∧ driverCalls (runDriver pagesC6 50) = 2 :=
  driver_two_orders_then_empty_two_calls pagesC6 50 (by omega) (by decide) (by decide)
    (by decide) (by rfl)

theorem discountContribution_eq_claim (d : Json) :
    ChecksRoute.discountContribution d = claimDiscountValue d := by
  simp only [ChecksRoute.discountContribution, claimDiscountValue, claimDiscountCandidates,
    claimFirstPresent, ChecksRoute.nullish]
  cases h1 : jsField d "discountAmount" with
  | some v1 =>
    cases v1 <;> try rfl
    case null =>
      cases h2 : jsField d "amount" with
      | some v2 =>
        cases v2 <;> try rfl
        case null =>
          cases h3 : jsField d "appliedDiscountAmount" with
          | some v3 => cases v3 <;> rfl
          | none => rfl
      | none =>
        cases h3 : jsField d "appliedDiscountAmount" with
        | some v3 => cases v3 <;> rfl
        | none => rfl
  | none =>
    cases h2 : jsField d "amount" with
    | some v2 =>
      cases v2 <;> try rfl
      case null =>
        cases h3 : jsField d "appliedDiscountAmount" with
        | some v3 => cases v3 <;> rfl
        | none => rfl
    | none =>
      cases h3 : jsField d "appliedDiscountAmount" with
      | some v3 => cases v3 <;> rfl
      | none => rfl

theorem foldl_jsAdd_shift {α : Type} (f : α → JsNum) (l : List α) : ∀ g : JsNum,
    l.foldl (fun s x => s.add (f x)) g
      = g.add (l.foldl (fun s x => s.add (f x)) (.fin 0)) := by
  induction l with
  | nil => intro g; simp [jsAdd_zero_right]
  | cons x l ih =>
    intro g
    simp only [List.foldl_cons]
    rw [ih (g.add (f x)), ih ((JsNum.fin 0).add (f x)), jsAdd_zero_left, jsAdd_assoc]

theorem sumDiscounts_eq_claimOwn (check : Json) :
    ChecksRoute.sumDiscountsFromDiscountObjects (jsField check "appliedDiscounts")
      = claimOwnListDiscountSum check := by
  have hfun : (fun (sum : JsNum) (d : Json) => sum.add (ChecksRoute.discountContribution d))
      = fun (sum : JsNum) (d : Json) => sum.add (claimDiscountValue d) := by
    funext s d
    rw [discountContribution_eq_claim]
  unfold claimOwnListDiscountSum getArrField
  cases h : jsField check "appliedDiscounts" with
  | none => rfl
  | some v =>
    cases v <;> simp [ChecksRoute.sumDiscountsFromDiscountObjects, hfun]

/-- C5, counterexample to the claim as stated. For the check whose single
discount object carries the amount only under the alternate name `amount`,
the metric record's reported `discountAmount` is 0 — the returned field
reads only the `discountAmount` field and does not fall back to `amount`
or `appliedDiscountAmount` — while the claimed fallback sum is 5. -/
theorem reported_discount_no_fallback_counterexample :
    (ChecksRoute.computeCheckMetrics c5Check).discountAmount = JsNum.fin 0
    ∧ claimOwnListDiscountSum c5Check = JsNum.fin 5
    ∧ ¬ (ChecksRoute.computeCheckMetrics c5Check).discountAmount
        = claimOwnListDiscountSum c5Check := by
  have h1 : (ChecksRoute.computeCheckMetrics c5Check).discountAmount = JsNum.fin 0 := by
    simp [ChecksRoute.computeCheckMetrics, c5Check, getArrField, jsField, lookupField,
      coerceAmt, JsNum.isFinite, JsNum.add]
  have h2 : claimOwnListDiscountSum c5Check = JsNum.fin 5 := by
    simp [claimOwnListDiscountSum, claimDiscountValue, claimFirstPresent,
      claimDiscountCandidates, c5Check, getArrField, jsField, lookupField, JsNum.isFinite,
      jsAdd_zero_left]
  refine ⟨h1, h2, ?_⟩
  rw [h1, h2]
  simp

/-- C5 as amended. The reported `discountAmount` of the checks route's
metric record sums the check's own discount list reading only the
`discountAmount` field of each discount object (missing or non-numeric
contributing zero); the alternate-name fallback (`discountAmount`, then
`amount`, then `appliedDiscountAmount`, tried in that order, skipping null)
lives in the selection-aware `computeDiscountTotal`, which equals the
fallback sum over the check's own discount list plus the fallback sums
over the discounts of each line-item Selection — and that quantity is
computed but not part of the returned metric record. -/
theorem discount_amount_amended :
    ∀ check : Json,
      (ChecksRoute.computeCheckMetrics check).discountAmount = singleFieldDiscountSum check
      ∧ ChecksRoute.sumDiscountsFromDiscountObjects (jsField check "appliedDiscounts")
          = claimOwnListDiscountSum check
      ∧ ChecksRoute.computeDiscountTotal check
          = (claimOwnListDiscountSum check).add (claimSelectionsDiscountSum check) := by
  intro check
  refine ⟨rfl, sumDiscounts_eq_claimOwn check, ?_⟩
  unfold ChecksRoute.computeDiscountTotal claimSelectionsDiscountSum
  rw [foldl_jsAdd_shift (fun s => ChecksRoute.sumDiscountsFromDiscountObjects
      (jsField s "appliedDiscounts")),
    sumDiscounts_eq_claimOwn check]

/-- C8. In both metric-calculator variants, `grossSales` is the sum of the
(coerced, finite-guarded) `amount` over exactly those payments whose
`paymentStatus` is the exact, case-sensitive string `CAPTURED`, and
`capturedPaymentCount` / `paymentCount` are the lengths of the
captured-payments and all-payments lists. In particular, a check with one
CAPTURED payment of 10.00 and one VOIDED payment of 5.00 yields gross
sales 10.00 with one captured payment out of two, and a lower-case
`captured` status does not count. -/
theorem grossSales_captured_only :
    (∀ check : Json,
      (ChecksRoute.computeCheckMetrics check).grossSales
          = specCapturedSum (getArrField check "payments")
      ∧ (ChecksRoute.computeCheckMetrics check).capturedPaymentCount
          = ((getArrField check "payments").filter isCaptured).length
      ∧ (ChecksRoute.computeCheckMetrics check).paymentCount
          = (getArrField check "payments").length
      ∧ (TotalsByChecks.computeCheckMetrics check).grossSales
          = specCapturedSum (getArrField check "payments")
      ∧ (TotalsByChecks.computeCheckMetrics check).capturedPaymentCount
          = ((getArrField check "payments").filter isCaptured).length
      ∧ (TotalsByChecks.computeCheckMetrics check).paymentCount
          = (getArrField check "payments").length)
    ∧ (ChecksRoute.computeCheckMetrics c8ExampleCheck).grossSales = JsNum.fin 10
    ∧ (ChecksRoute.computeCheckMetrics c8ExampleCheck).capturedPaymentCount = 1
    ∧ (ChecksRoute.computeCheckMetrics c8ExampleCheck).paymentCount = 2
    ∧ (TotalsByChecks.computeCheckMetrics c8ExampleCheck).grossSales = JsNum.fin 10
    ∧ (TotalsByChecks.computeCheckMetrics c8ExampleCheck).capturedPaymentCount = 1
    ∧ (TotalsByChecks.computeCheckMetrics c8ExampleCheck).paymentCount = 2
    ∧ (ChecksRoute.computeCheckMetrics c8LowerCaseCheck).grossSales = JsNum.fin 0
    ∧ (ChecksRoute.computeCheckMetrics c8LowerCaseCheck).capturedPaymentCount = 0
    ∧ (ChecksRoute.computeCheckMetrics c8LowerCaseCheck).paymentCount = 1 := by
  refine ⟨fun check => ⟨?_, rfl, rfl, ?_, rfl, rfl⟩, ?_, rfl, rfl, ?_, rfl, rfl, ?_, rfl, rfl⟩
  · simp [ChecksRoute.computeCheckMetrics, specCapturedSum, List.foldl_map]
  · simp [TotalsByChecks.computeCheckMetrics, specCapturedSum, List.foldl_map]
  · simp [ChecksRoute.computeCheckMetrics, c8ExampleCheck, getArrField, jsField,
      lookupField, isCaptured, coerceAmt, JsNum.isFinite, JsNum.add, jsAdd_zero_left]
  · simp [TotalsByChecks.computeCheckMetrics, c8ExampleCheck, getArrField, jsField,
      lookupField, isCaptured, coerceAmt, JsNum.isFinite, JsNum.add, jsAdd_zero_left]
  · simp [ChecksRoute.computeCheckMetrics, c8LowerCaseCheck, getArrField, jsField,
      lookupField, isCaptured, coerceAmt, JsNum.isFinite, JsNum.add, jsAdd_zero_left]
